import Mathlib

/-!
Shallow embedding of the Vector Graphic dual-mode disk controller
(`src/devices/bus/s100/vectordualmode.cpp`) and proofs about its
MFM codec, sector-timing state machine, register front-end and
byte-transfer engine.
-/

namespace VectorDualmode

/-- Interleave 8 bits with zeros, `abcdefgh -> 0a0b0c0d0e0f0g0h`
(`deposit8` in the source). Only the low 8 bits of the input matter. -/
def deposit8 (data : Nat) : Nat :=
  let d := data
  let d := ((d &&& 0xf0) <<< 4) ||| (d &&& 0x0f)
  let d := ((d <<< 2) ||| d) &&& 0x3333
  let d := ((d <<< 1) ||| d) &&& 0x5555
  d

/-- MFM-encode one data byte given the previous data byte
(`mfm_byte` in the source).  The C `~` on a 32-bit unsigned value is
modelled as xor with `0xFFFFFFFF`; the `uint16_t` return type as a
final `&&& 0xFFFF`. -/
def mfm_byte (data prev_data : Nat) : Nat :=
  let ext_data := data ||| (prev_data <<< 8)
  let clock := (ext_data ||| (ext_data >>> 1)) ^^^ 0xFFFFFFFF
  (((deposit8 clock) <<< 1) ||| deposit8 ext_data) &&& 0xFFFF

/-- Extract the data byte out of a 16-bit MFM code
(`unmfm_byte` in the source). -/
def unmfm_byte (mfm : Nat) : Nat :=
  let d := mfm &&& 0x5555
  let d := ((d >>> 1) ||| d) &&& 0x3333
  let d := ((d >>> 2) ||| d) &&& 0x0f0f
  let d := ((d >>> 4) ||| d) &&& 0x00ff
  d

/-! Helper lemmas about the codec's bit manipulations. -/

lemma and_shiftLeft_distrib (a b n : Nat) :
    (a &&& b) <<< n = (a <<< n) &&& (b <<< n) := by
  apply Nat.eq_of_testBit_eq
  intro i
  by_cases h : n ≤ i <;> simp [Nat.testBit_shiftLeft, Nat.testBit_and, h]

lemma shiftLeft8_and_lt (p m : Nat) (h : m < 256) : (p <<< 8) &&& m = 0 := by
  apply Nat.eq_of_testBit_eq
  intro i
  by_cases h8 : 8 ≤ i
  · have hm : m.testBit i = false :=
      Nat.testBit_lt_two_pow (lt_of_lt_of_le h (by
        calc (256 : Nat) = 2 ^ 8 := by norm_num
        _ ≤ 2 ^ i := Nat.pow_le_pow_right (by norm_num) h8))
    simp [Nat.testBit_shiftLeft, Nat.testBit_and, hm]
  · simp [Nat.testBit_shiftLeft, Nat.testBit_and, h8]

/-- `deposit8` ignores everything above the low 8 bits of its input. -/
lemma deposit8_or_high (b p : Nat) : deposit8 (b ||| p <<< 8) = deposit8 b := by
  dsimp only [deposit8]
  rw [Nat.and_distrib_right b (p <<< 8) 0xf0,
      shiftLeft8_and_lt p 0xf0 (by norm_num), Nat.or_zero,
      Nat.and_distrib_right b (p <<< 8) 0x0f,
      shiftLeft8_and_lt p 0x0f (by norm_num), Nat.or_zero]

/-- The result of `deposit8` only occupies the even bit positions. -/
lemma deposit8_masked (x : Nat) : deposit8 x &&& 0x5555 = deposit8 x := by
  dsimp only [deposit8]
  rw [Nat.land_assoc, Nat.and_self]

/-- Shifting a `deposit8` result left by one moves it entirely into the
odd bit positions, so masking with `0x5555` kills it. -/
lemma deposit8_shifted_masked (x : Nat) : (deposit8 x <<< 1) &&& 0x5555 = 0 := by
  conv_lhs => rw [← deposit8_masked x]
  rw [and_shiftLeft_distrib]
  rw [Nat.land_assoc]
  have h1 : (0x5555 : Nat) <<< 1 &&& 0x5555 = 0 := by decide
  rw [h1, Nat.and_zero]

lemma unmfm_byte_congr {m₁ m₂ : Nat} (h : m₁ &&& 0x5555 = m₂ &&& 0x5555) :
    unmfm_byte m₁ = unmfm_byte m₂ := by
  dsimp only [unmfm_byte]
  rw [h]

/-- Decoding discards all of the (odd-positioned) clock bits. -/
lemma unmfm_drops_clock (x y : Nat) :
    unmfm_byte (((deposit8 x <<< 1) ||| deposit8 y) &&& 0xFFFF) =
      unmfm_byte (deposit8 y) := by
  apply unmfm_byte_congr
  rw [Nat.land_assoc]
  have h1 : (0xFFFF : Nat) &&& 0x5555 = 0x5555 := by decide
  rw [h1, Nat.and_distrib_right, deposit8_shifted_masked, Nat.zero_or]

set_option maxRecDepth 10000 in
lemma unmfm_deposit8 : ∀ b : Fin 256, unmfm_byte (deposit8 b.val) = b.val := by
  decide

/-- C1: MFM codec round-trip: decoding the word produced by encoding any
byte `b` with any previous-byte context `p` returns exactly `b`. -/
theorem C1_mfm_roundtrip : ∀ b p : Fin 256, unmfm_byte (mfm_byte b.val p.val) = b.val := by
  intro b p
  show unmfm_byte (((deposit8 _ <<< 1) ||| deposit8 (b.val ||| p.val <<< 8)) &&& 0xFFFF)
      = b.val
  rw [unmfm_drops_clock, deposit8_or_high, unmfm_deposit8]

/-! ### C4: the clock-bit context taken from the previous byte -/

/-- Encoder written from the words of claim C4: data bits interleaved with
clock bits, each clock bit the bitwise NOT of (data bits OR data bits
shifted right by one), where the context bit sitting next to the most
significant data bit is the TOP bit (bit 7) of the previous byte. -/
def mfm_byte_claimC4 (data prev_data : Nat) : Nat :=
  let ext_data := data ||| (((prev_data >>> 7) &&& 1) <<< 8)
  let clock := (ext_data ||| (ext_data >>> 1)) ^^^ 0xFFFFFFFF
  (((deposit8 clock) <<< 1) ||| deposit8 ext_data) &&& 0xFFFF

/-- Encoder written from the words of claim C4 as amended: identical except
that the context for the most significant clock bit is the BOTTOM bit
(bit 0) of the previous byte. -/
def mfm_byte_lsbCtx (data prev_data : Nat) : Nat :=
  let ext_data := data ||| ((prev_data &&& 1) <<< 8)
  let clock := (ext_data ||| (ext_data >>> 1)) ^^^ 0xFFFFFFFF
  (((deposit8 clock) <<< 1) ||| deposit8 ext_data) &&& 0xFFFF

/-- C4 counterexample: with previous byte `0x80` (top bit set, bottom bit
clear) and data byte `0`, the code's encoder disagrees with the claim's
top-bit-context encoder. -/
theorem C4_counterexample : mfm_byte 0 0x80 ≠ mfm_byte_claimC4 0 0x80 := by decide

lemma or_shiftRight_distrib (a b n : Nat) :
    (a ||| b) >>> n = (a >>> n) ||| (b >>> n) := by
  apply Nat.eq_of_testBit_eq
  intro i
  simp [Nat.testBit_shiftRight, Nat.testBit_or]

lemma shiftLeft8_shiftRight1 (p : Nat) : p <<< 8 >>> 1 = p <<< 7 := by
  apply Nat.eq_of_testBit_eq
  intro i
  simp only [Nat.testBit_shiftRight, Nat.testBit_shiftLeft, ge_iff_le]
  by_cases h : 7 ≤ i
  · have h8 : 8 ≤ 1 + i := by omega
    have hi : 1 + i - 8 = i - 7 := by omega
    simp [h, h8, hi]
  · have h8 : ¬ (8 ≤ 1 + i) := by omega
    simp [h, h8]

lemma and_ff_of_lt {x : Nat} (h : x < 256) : x &&& 0xff = x := by
  have h2 := Nat.and_pow_two_sub_one_eq_mod x 8
  norm_num at h2
  rw [h2, Nat.mod_eq_of_lt h]

lemma shiftLeft7_and_ff (p : Nat) : (p <<< 7) &&& 0xff = (p &&& 1) <<< 7 := by
  apply Nat.eq_of_testBit_eq
  intro i
  simp only [Nat.testBit_and, Nat.testBit_shiftLeft, ge_iff_le]
  rcases lt_trichotomy i 7 with h | h | h
  · have h7 : ¬ (7 ≤ i) := by omega
    simp [h7]
  · subst h
    have hff : Nat.testBit 0xff 7 = true := by decide
    have h1 : Nat.testBit 1 0 = true := by decide
    simp [hff, Nat.testBit_and, h1]
  · have hff : Nat.testBit 0xff i = false :=
      Nat.testBit_lt_two_pow (by
        calc (0xff : Nat) < 2 ^ 8 := by norm_num
        _ ≤ 2 ^ i := Nat.pow_le_pow_right (by norm_num) (by omega))
    have hp : Nat.testBit (p &&& 1) (i - 7) = false :=
      Nat.testBit_lt_two_pow (lt_of_le_of_lt Nat.and_le_right (by
        calc (1 : Nat) < 2 ^ 1 := by norm_num
        _ ≤ 2 ^ (i - 7) := Nat.pow_le_pow_right (by norm_num) (by omega)))
    have h1 : Nat.testBit 1 (i - 7) = false :=
      Nat.testBit_lt_two_pow (by
        calc (1 : Nat) < 2 ^ 1 := by norm_num
        _ ≤ 2 ^ (i - 7) := Nat.pow_le_pow_right (by norm_num) (by omega))
    simp [hff, hp, h1]

/-- `deposit8` only looks at the low byte of its argument. -/
lemma deposit8_low (x : Nat) : deposit8 x = deposit8 (x &&& 0xff) := by
  dsimp only [deposit8]
  have hf0 : (0xff : Nat) &&& 0xf0 = 0xf0 := by decide
  have h0f : (0xff : Nat) &&& 0x0f = 0x0f := by decide
  rw [Nat.land_assoc x 0xff 0xf0, hf0, Nat.land_assoc x 0xff 0x0f, h0f]

lemma xor_full_and_ff (a : Nat) :
    (a ^^^ 0xFFFFFFFF) &&& 0xff = (a &&& 0xff) ^^^ 0xff := by
  rw [Nat.and_xor_distrib_right]
  have h : (0xFFFFFFFF : Nat) &&& 0xff = 0xff := by decide
  rw [h]

/-- Low byte of the pre-clock word `ext ||| ext >>> 1`, for an extended
word `b ||| c <<< 8`: only bit 0 of the context `c` can reach it. -/
lemma clock_low (b c : Nat) (hb : b < 256) :
    ((b ||| c <<< 8) ||| ((b ||| c <<< 8) >>> 1)) &&& 0xff =
      b ||| ((b >>> 1) ||| ((c &&& 1) <<< 7)) := by
  have hb1 : b >>> 1 < 256 := by
    rw [Nat.shiftRight_one]
    exact lt_of_le_of_lt (Nat.div_le_self b 2) hb
  rw [Nat.and_distrib_right, Nat.and_distrib_right, shiftLeft8_and_lt c 0xff (by norm_num),
      Nat.or_zero, and_ff_of_lt hb, or_shiftRight_distrib, shiftLeft8_shiftRight1,
      Nat.and_distrib_right, and_ff_of_lt hb1, shiftLeft7_and_ff]

/-- C4 amended: the code's encoder does interleave data bits with
NOT(data OR data >>> 1) clock bits, but the context for the most
significant clock bit is the BOTTOM bit of the previous byte, not the
top bit. -/
theorem C4_amended_lsb_context :
    ∀ b p : Fin 256, mfm_byte b.val p.val = mfm_byte_lsbCtx b.val p.val := by
  intro b p
  show (((deposit8 (((b.val ||| p.val <<< 8) ||| ((b.val ||| p.val <<< 8) >>> 1)) ^^^ 0xFFFFFFFF)) <<< 1)
        ||| deposit8 (b.val ||| p.val <<< 8)) &&& 0xFFFF =
      (((deposit8 (((b.val ||| (p.val &&& 1) <<< 8) ||| ((b.val ||| (p.val &&& 1) <<< 8) >>> 1)) ^^^ 0xFFFFFFFF)) <<< 1)
        ||| deposit8 (b.val ||| (p.val &&& 1) <<< 8)) &&& 0xFFFF
  rw [deposit8_or_high b.val p.val, deposit8_or_high b.val (p.val &&& 1),
      deposit8_low ((((b.val ||| p.val <<< 8) ||| ((b.val ||| p.val <<< 8) >>> 1)) ^^^ 0xFFFFFFFF)),
      deposit8_low ((((b.val ||| (p.val &&& 1) <<< 8) ||| ((b.val ||| (p.val &&& 1) <<< 8) >>> 1)) ^^^ 0xFFFFFFFF)),
      xor_full_and_ff, xor_full_and_ff, clock_low b.val p.val b.isLt,
      clock_low b.val (p.val &&& 1) b.isLt, Nat.land_assoc, Nat.and_self]

/-! ### Controller state machine

The controller's mutable fields (`s100_vector_dualmode_device`).  Times are
naturals in attoseconds, matching the emulator's `attotime` resolution.
Timers are modelled by their observable state: `byteTimer` holds the
absolute time of the next pending `byte_cb` (or `none` when disabled),
`sectorTimer` holds (next fire time, period) for the periodic hard-disk
sector timer.  `m_pending_byte` is a 16-bit accumulator; its declaration
lives in the device header, which is not part of the sources here.
Modelled from the spec: "TransferCursor: pendingBits: accumulated up to 16
bits of in-flight MFM data", hence the `&&& 0xFFFF` on each shift. -/

structure Ctl where
  ram : Nat → Nat
  cmar : Nat
  drive : Nat
  reducedWc : Bool
  sector : Nat
  sectorCounter : Nat
  readMode : Bool
  ecc : Bool
  wpcom : Bool
  busy : Bool
  lastSectorPulse : Nat
  lastIndexPulse : Nat
  motorTimerEnabled : Bool
  byteTimer : Option Nat
  sectorTimer : Option (Nat × Nat)
  pendingByte : Nat
  pendingSize : Nat

/-- The controller's environment for one callback or register access: the
current virtual time, which external devices are attached and their status
lines, and the timed media streams.  `bits` is the PLL-recovered flux bit
stream of the selected floppy (edge time, bit); `words` is the hard
disk's stream of 16-bit MFM cells (end-of-cell time, cell). -/
structure Env where
  now : Nat
  hddPresent : Bool
  flopPresent : Nat → Bool
  flopWpt : Nat → Bool
  flopTrk00 : Nat → Bool
  hddReady : Bool
  hddTrk00 : Bool
  hddSeekComplete : Bool
  sideEffectsDisabled : Bool
  bits : List (Nat × Bool)
  words : List (Nat × Nat)

/-- Timing constants, in attoseconds. -/
def fdd_half_bitcell_size : Nat := 2000000000000

def hdd_half_bitcell_size : Nat := 100000000000

/-- The floppy index debounce window: `attotime::from_nsec(10213500)`. -/
def debounce_window : Nat := 10213500000000000

/-- `hdd_selected()`: drive 0 is the hard disk when one is attached. -/
def hdd_selected (env : Env) (s : Ctl) : Bool :=
  s.drive == 0 && env.hddPresent

/-- State carried through the floppy bit-recovery loops of `sector_cb` /
`byte_cb`: remaining bit stream, `m_pending_byte`, `m_pending_size`, and
the running edge time `tm`. -/
structure PllSt where
  bits : List (Nat × Bool)
  pb : Nat
  ps : Nat
  tm : Nat

/-- `get_next_bit` repeated until the PLL finds no transition before
`limit`: the "init PLL" loop of the floppy read path. -/
def pllInit (limit : Nat) : List (Nat × Bool) → Nat → Nat → Nat → PllSt
  | [], pb, ps, tm => ⟨[], pb, ps, tm⟩
  | (t, b) :: rest, pb, ps, tm =>
    if limit < t then ⟨(t, b) :: rest, pb, ps, tm⟩
    else pllInit limit rest (((pb <<< 1) ||| (if b then 1 else 0)) &&& 0xFFFF) (ps + 1) t

/-- The floppy sync-search loop: pull bits until `m_pending_byte` equals
`0x5554` or the PLL finds no transition before `limit`.  Returns whether
the sync pattern was found together with the final loop state. -/
def floppySync (limit : Nat) : List (Nat × Bool) → Nat → Nat → Nat → Bool × PllSt
  | bits, pb, ps, tm =>
    if pb = 0x5554 then (true, ⟨bits, pb, ps, tm⟩)
    else match bits with
      | [] => (false, ⟨[], pb, ps, tm⟩)
      | (t, b) :: rest =>
        if limit < t then (false, ⟨(t, b) :: rest, pb, ps, tm⟩)
        else floppySync limit rest (((pb <<< 1) ||| (if b then 1 else 0)) &&& 0xFFFF) (ps + 1) t

/-- The hard-disk sync-search loop: read 16-bit cells until
`m_pending_byte` equals `0x5555` or a cell would end past `limit`.
Returns (found, pending byte, edge time). -/
def hddSync (limit : Nat) : List (Nat × Nat) → Nat → Nat → Bool × Nat × Nat
  | words, pb, tm =>
    if pb = 0x5555 then (true, pb, tm)
    else match words with
      | [] => (false, pb, tm)
      | (t, w) :: rest =>
        if limit < t then (false, pb, tm)
        else hddSync limit rest (w &&& 0xFFFF) t

/-- The whole floppy read-synchronization pass of `sector_cb`: reset the
PLL, run it for 512 half bit cells, then search for the `0x5554` sync
pattern for a further `16 * 30` half bit cells (30 byte times). -/
def floppySearch (env : Env) (pb ps : Nat) : Bool × PllSt :=
  let limit0 := env.now + fdd_half_bitcell_size * 512
  let st0 := pllInit limit0 env.bits pb ps 0
  floppySync (limit0 + fdd_half_bitcell_size * 16 * 30) st0.bits st0.pb st0.ps st0.tm

/-- The hard-disk read-synchronization pass of `sector_cb`: start 256 half
bit cells from now and search for the `0x5555` sync pattern for a further
`16 * 30` half bit cells (30 byte times). -/
def hddSearch (env : Env) (pb : Nat) : Bool × Nat × Nat :=
  let tm0 := env.now + hdd_half_bitcell_size * 256
  hddSync (tm0 + hdd_half_bitcell_size * 16 * 30) env.words pb tm0

/-- Body of `sector_cb` after the counter increment: revolution-timeout
forced completion, then sector-match transfer start.  `hdd` is
`hdd_selected()`, which `sector_cb` evaluates on an unchanged drive
selection. -/
def sector_cb_body (env : Env) (hdd : Bool) (s : Ctl) : Ctl :=
  if !s.busy then s
  else if s.byteTimer.isSome then
    let s' := { s with byteTimer := none, busy := false }
    if s'.readMode && !hdd then { s' with ram := Function.update s'.ram 274 0 } else s'
  else if s.sectorCounter == s.sector then
    if s.readMode then
      if hdd then
        match hddSearch env s.pendingByte with
        | (true, pb, tm) => { s with pendingByte := pb, pendingSize := 16, byteTimer := some tm }
        | (false, pb, _) => { s with pendingByte := pb }
      else
        match floppySearch env s.pendingByte s.pendingSize with
        | (true, st) => { s with pendingByte := st.pb, pendingSize := 1, byteTimer := some st.tm }
        | (false, st) => { s with pendingByte := st.pb, pendingSize := st.ps }
    else { s with pendingSize := 0, byteTimer := some env.now }
  else s

/-- `sector_cb`: increment the sector counter modulo the drive kind's
sector count, park the hard-disk sector timer on the pulse before the next
index, then run the transfer logic. -/
def sector_cb (env : Env) (s : Ctl) : Ctl :=
  let hdd := hdd_selected env s
  let sc := (s.sectorCounter + 1) &&& (if hdd then 0x1f else 0xf)
  sector_cb_body env hdd
    { s with sectorCounter := sc,
             sectorTimer := if hdd && sc == 0x1f then none else s.sectorTimer }

/-- `floppy_index_cb`: a hard-sector index pulse from a floppy.
`sameFloppy` models `m_floppy[m_drive]->get_device() == floppy`. -/
def floppy_index_cb (env : Env) (s : Ctl) (sameFloppy : Bool) (state : Bool) : Ctl :=
  if hdd_selected env s || !sameFloppy then s
  else if !state then s
  else if env.now - s.lastSectorPulse < debounce_window then
    { s with sectorCounter := 0xf }
  else
    sector_cb env { s with lastSectorPulse := env.now }

/-- `harddisk_index_cb`: the hard disk's once-per-revolution index pulse.
Derives the synthetic sector period, arms the periodic sector timer, and
steps the counter. -/
def harddisk_index_cb (env : Env) (s : Ctl) (state : Bool) : Ctl :=
  if !hdd_selected env s then s
  else if !state then s
  else
    let sector_time := (env.now - s.lastIndexPulse) / 32
    sector_cb env
      { s with sectorCounter := 0x1f,
               lastIndexPulse := env.now,
               sectorTimer := some (env.now + sector_time, sector_time) }

/-- One firing of the periodic sector timer: the scheduler advances to the
scheduled time, re-arms the periodic timer one period later, and invokes
`sector_cb`.  Disabled timers do not fire. -/
def fireSectorTimer (env : Env) (s : Ctl) : Ctl :=
  match s.sectorTimer with
  | none => s
  | some (t, p) => sector_cb { env with now := t } { s with sectorTimer := some (t + p, p) }

/-- The floppy accumulation loop of the `byte_cb` read path:
`while (m_pending_size != 16 && get_next_bit(tm, attotime::never)) {}`. -/
def readUntil16 : List (Nat × Bool) → Nat → Nat → Nat → PllSt
  | bits, pb, ps, tm =>
    if ps == 16 then ⟨bits, pb, ps, tm⟩
    else match bits with
      | [] => ⟨[], pb, ps, tm⟩
      | (t, b) :: rest =>
        readUntil16 rest (((pb <<< 1) ||| (if b then 1 else 0)) &&& 0xFFFF) (ps + 1) t

/-- `byte_cb`: the per-byte transfer engine.  On the write path, flux
emission to the media is an external effect; the floppy emission loop's
only controller-visible effect is draining `m_pending_size` to 0. -/
def byte_cb (env : Env) (s : Ctl) : Ctl :=
  if s.readMode then
    let s1 :=
      if s.pendingSize == 16 then
        { s with pendingSize := 0,
                 ram := Function.update s.ram s.cmar (unmfm_byte s.pendingByte),
                 cmar := (s.cmar + 1) &&& 0x1ff }
      else s
    if hdd_selected env s1 then
      match env.words with
      | (t, w) :: _ => { s1 with pendingByte := w &&& 0xFFFF, pendingSize := 16, byteTimer := some t }
      | [] => { s1 with pendingSize := 16, byteTimer := some env.now }
    else
      let st := readUntil16 env.bits s1.pendingByte s1.pendingSize env.now
      { s1 with pendingByte := st.pb, pendingSize := st.ps, byteTimer := some st.tm }
  else
    let half := if hdd_selected env s then hdd_half_bitcell_size else fdd_half_bitcell_size
    let s1 :=
      if s.pendingSize == 16 then
        if hdd_selected env s then s else { s with pendingSize := 0 }
      else s
    let last := if s1.cmar ≠ 0 then s1.ram (s1.cmar - 1) else 0
    { s1 with pendingByte := mfm_byte (s1.ram s1.cmar) last,
              pendingSize := 16,
              cmar := (s1.cmar + 1) &&& 0x1ff,
              byteTimer := some (env.now + half * 16) }

/-- `motor_off` timer callback. -/
def motor_off (s : Ctl) : Ctl :=
  { s with byteTimer := none, busy := false, motorTimerEnabled := false }

/-- Status (0) port value, from the selected drive's status lines. -/
def status0_r (env : Env) (s : Ctl) : Nat :=
  if hdd_selected env s then
    (if env.hddReady then 0x02 else 0) |||
    (if env.hddTrk00 then 0x04 else 0) |||
    (if env.hddSeekComplete then 0x10 else 0) ||| 0x20 ||| 0xc0
  else
    (if env.flopPresent s.drive && env.flopWpt s.drive then 0x01 else 0) |||
    (if env.flopPresent s.drive && !env.flopTrk00 s.drive then 0x04 else 0) ||| 0xc0

/-- Status (1) port value. -/
def status1_r (env : Env) (s : Ctl) : Nat :=
  (if hdd_selected env s then 0 else 0x01) |||
  (if s.busy then 0x02 else 0) |||
  (if !(hdd_selected env s) && s.motorTimerEnabled then 0x04 else 0) |||
  0x08 ||| 0xf0

/-- `s100_sinp_r`: a host read.  Returns the byte placed on the bus and
the successor controller state. -/
def s100_sinp_r (env : Env) (s : Ctl) (offset : Nat) : Nat × Ctl :=
  if s.busy then (0xff, s)
  else if offset = 0xc0 then (status0_r env s, s)
  else if offset = 0xc1 then (status1_r env s, s)
  else if offset = 0xc2 then
    (s.ram s.cmar,
     if env.sideEffectsDisabled then s else { s with cmar := (s.cmar + 1) &&& 0x1ff })
  else if offset = 0xc3 then
    (0xff, if env.sideEffectsDisabled then s else { s with cmar := 0 })
  else (0xff, s)

/-- `s100_sout_w`: a host write.  Head select, step pulses and motor
control reach the drives directly and are external effects; the motor
monostable retrigger is visible as `motorTimerEnabled`. -/
def s100_sout_w (env : Env) (s : Ctl) (offset data : Nat) : Ctl :=
  if s.busy then s
  else if offset = 0xc0 then
    let s' := { s with drive := data &&& 0x3,
                       reducedWc := data.testBit 7,
                       motorTimerEnabled := true }
    if hdd_selected env s' then s'
    else if s'.sectorTimer.isSome then { s' with sectorTimer := none } else s'
  else if offset = 0xc1 then
    { s with sector := data &&& 0x1f,
             readMode := data.testBit 5,
             ecc := data.testBit 6,
             wpcom := data.testBit 7 }
  else if offset = 0xc2 then
    { s with ram := Function.update s.ram s.cmar (data &&& 0xff),
             cmar := (s.cmar + 1) &&& 0x1ff }
  else if offset = 0xc3 then
    { s with busy := s.motorTimerEnabled }
  else s

/-! ### Concrete states and environments used by witnesses -/

/-- A quiescent controller state. -/
def ctl0 : Ctl :=
  { ram := fun _ => 0, cmar := 0, drive := 0, reducedWc := false, sector := 0,
    sectorCounter := 0, readMode := false, ecc := false, wpcom := false,
    busy := false, lastSectorPulse := 0, lastIndexPulse := 0,
    motorTimerEnabled := false, byteTimer := none, sectorTimer := none,
    pendingByte := 0, pendingSize := 0 }

/-- An environment with nothing attached and empty media streams. -/
def env0 : Env :=
  { now := 0, hddPresent := false, flopPresent := fun _ => false,
    flopWpt := fun _ => false, flopTrk00 := fun _ => false, hddReady := false,
    hddTrk00 := false, hddSeekComplete := false, sideEffectsDisabled := false,
    bits := [], words := [] }

/-- An environment with the hard disk attached. -/
def envH : Env := { env0 with hddPresent := true }

/-! ### Generic facts about `sector_cb` -/

lemma and_0xf_eq_mod (x : Nat) : x &&& 0xf = x % 16 := by
  have h := Nat.and_pow_two_sub_one_eq_mod x 4
  norm_num at h
  exact h

lemma and_0x1f_eq_mod (x : Nat) : x &&& 0x1f = x % 32 := by
  have h := Nat.and_pow_two_sub_one_eq_mod x 5
  norm_num at h
  exact h

lemma and_0x1ff_eq_mod (x : Nat) : x &&& 0x1ff = x % 512 := by
  have h := Nat.and_pow_two_sub_one_eq_mod x 9
  norm_num at h
  exact h

/-- The transfer part of `sector_cb` never touches the sector counter, the
sector timer, the drive selection, the cursor, or the pulse timestamps. -/
lemma sector_cb_body_fields (env : Env) (hdd : Bool) (s : Ctl) :
    (sector_cb_body env hdd s).sectorCounter = s.sectorCounter ∧
    (sector_cb_body env hdd s).sectorTimer = s.sectorTimer ∧
    (sector_cb_body env hdd s).drive = s.drive ∧
    (sector_cb_body env hdd s).cmar = s.cmar ∧
    (sector_cb_body env hdd s).lastIndexPulse = s.lastIndexPulse ∧
    (sector_cb_body env hdd s).lastSectorPulse = s.lastSectorPulse := by
  unfold sector_cb_body
  refine ⟨?_, ?_, ?_, ?_, ?_, ?_⟩ <;> (repeat' first | split | dsimp only)

lemma sector_cb_sectorCounter (env : Env) (s : Ctl) :
    (sector_cb env s).sectorCounter =
      (s.sectorCounter + 1) &&& (if hdd_selected env s then 0x1f else 0xf) := by
  unfold sector_cb
  exact (sector_cb_body_fields _ _ _).1

lemma sector_cb_sectorTimer (env : Env) (s : Ctl) :
    (sector_cb env s).sectorTimer =
      (if hdd_selected env s
          && ((s.sectorCounter + 1) &&& (if hdd_selected env s then 0x1f else 0xf)) == 0x1f
       then none else s.sectorTimer) := by
  unfold sector_cb
  exact (sector_cb_body_fields _ _ _).2.1

lemma sector_cb_drive (env : Env) (s : Ctl) : (sector_cb env s).drive = s.drive := by
  unfold sector_cb
  exact (sector_cb_body_fields _ _ _).2.2.1

lemma sector_cb_lastIndexPulse (env : Env) (s : Ctl) :
    (sector_cb env s).lastIndexPulse = s.lastIndexPulse := by
  unfold sector_cb
  exact (sector_cb_body_fields _ _ _).2.2.2.2.1

lemma sector_cb_lastSectorPulse (env : Env) (s : Ctl) :
    (sector_cb env s).lastSectorPulse = s.lastSectorPulse := by
  unfold sector_cb
  exact (sector_cb_body_fields _ _ _).2.2.2.2.2

/-! ### C9: start gating -/

/-- C9: a start-port write while not busy copies the motor timer's enabled
state into BusyFlag and changes nothing else. -/
theorem C9_start_gating (env : Env) (s : Ctl) (d : Nat) (h : s.busy = false) :
    s100_sout_w env s 0xc3 d = { s with busy := s.motorTimerEnabled } := by
  simp [s100_sout_w, h]

theorem C9_witness :
    s100_sout_w env0 ctl0 0xc3 0 = { ctl0 with busy := ctl0.motorTimerEnabled } :=
  C9_start_gating env0 ctl0 0 rfl

/-! ### C10: write-path MFM context -/

/-- C10: on a write-mode byte callback the encode context is the buffer
byte just before the cursor when the cursor is nonzero, and the constant 0
when the cursor is 0 (index 511 is never used as wrap-around context). -/
theorem C10_write_context (env : Env) (s : Ctl) (h : s.readMode = false) :
    (byte_cb env s).pendingByte =
      mfm_byte (s.ram s.cmar) (if s.cmar ≠ 0 then s.ram (s.cmar - 1) else 0) := by
  unfold byte_cb
  rw [h]
  simp only [Bool.false_eq_true, if_false]
  split <;> split <;> rfl

theorem C10_witness :
    (byte_cb env0 ctl0).pendingByte =
      mfm_byte (ctl0.ram ctl0.cmar) (if ctl0.cmar ≠ 0 then ctl0.ram (ctl0.cmar - 1) else 0) :=
  C10_write_context env0 ctl0 rfl

/-! ### C2: revolution-timeout forced completion -/

/-- A hard-disk read in progress (busy, byte timer armed) with a marker
value in the staging buffer's ECC position. -/
def ctlC2 : Ctl :=
  { ctl0 with busy := true, readMode := true, byteTimer := some 0, ram := fun _ => 7 }

/-- C2 counterexample: a sector pulse during a busy hard-disk read with the
byte timer active leaves the buffer's ECC byte untouched, contradicting the
claim that a read against the hard disk clears it.  (The code clears it for
floppy reads instead.) -/
theorem C2_counterexample : (sector_cb envH ctlC2).ram 274 ≠ 0 := by decide

/-- C2 amended: a sector-counter increment while busy with the byte timer
active disables the byte timer and clears BusyFlag; for a read against a
FLOPPY the buffer byte at the ECC position (index 274) is cleared, and in
all other cases the staging buffer is unchanged. -/
theorem C2_amended_forced_completion (env : Env) (s : Ctl)
    (hb : s.busy = true) (ht : s.byteTimer.isSome = true) :
    (sector_cb env s).byteTimer = none ∧ (sector_cb env s).busy = false ∧
    (sector_cb env s).ram =
      (if s.readMode = true ∧ hdd_selected env s = false
       then Function.update s.ram 274 0 else s.ram) := by
  unfold sector_cb sector_cb_body
  by_cases hr : s.readMode <;> by_cases hh : hdd_selected env s <;>
    simp [hb, ht, hr, hh]

/-- A busy floppy state with the byte timer armed. -/
def ctlBusyBT : Ctl := { ctl0 with busy := true, byteTimer := some 0 }

theorem C2_witness :
    (sector_cb env0 ctlBusyBT).byteTimer = none ∧
    (sector_cb env0 ctlBusyBT).busy = false ∧
    (sector_cb env0 ctlBusyBT).ram =
      (if ctlBusyBT.readMode = true ∧ hdd_selected env0 ctlBusyBT = false
       then Function.update ctlBusyBT.ram 274 0 else ctlBusyBT.ram) :=
  C2_amended_forced_completion env0 ctlBusyBT rfl rfl

/-! ### C3: busy gating of register accesses -/

/-- A busy controller with the hard disk selected. -/
def ctlBusy : Ctl := { ctl0 with busy := true }

/-- C3 counterexample: while busy, reading status port 1 returns the 0xFF
sentinel, NOT the live status value, contradicting the claim's exception
for the two status ports. -/
theorem C3_counterexample :
    (s100_sinp_r envH ctlBusy 0xc1).1 ≠ status1_r envH ctlBusy := by decide

/-- C3 amended: while BusyFlag is true, every register write is ignored and
every register read — including the two status ports — returns the fixed
busy sentinel 0xFF and leaves the controller unchanged. -/
theorem C3_amended_busy_gating (env : Env) (s : Ctl) (hb : s.busy = true) :
    (∀ offset data, s100_sout_w env s offset data = s) ∧
    (∀ offset, s100_sinp_r env s offset = (0xff, s)) := by
  refine ⟨fun o d => ?_, fun o => ?_⟩ <;> simp [s100_sout_w, s100_sinp_r, hb]

theorem C3_witness :
    (∀ offset data, s100_sout_w envH ctlBusy offset data = ctlBusy) ∧
    (∀ offset, s100_sinp_r envH ctlBusy offset = (0xff, ctlBusy)) :=
  C3_amended_busy_gating envH ctlBusy rfl

/-! ### C5: floppy hard-sector pulse counting and debounce -/

/-- C5: a rising index pulse from the selected floppy increments the sector
counter modulo 16 and records the pulse time, unless it arrives within the
debounce window of the previously accepted pulse, in which case the
counter is forced to 15 and nothing else changes (in particular the pulse
is not recorded as accepted). -/
theorem C5_floppy_debounce (env : Env) (s : Ctl)
    (hsel : hdd_selected env s = false) (hmono : s.lastSectorPulse ≤ env.now) :
    (env.now - s.lastSectorPulse < debounce_window →
      floppy_index_cb env s true true = { s with sectorCounter := 0xf }) ∧
    (debounce_window ≤ env.now - s.lastSectorPulse →
      (floppy_index_cb env s true true).sectorCounter = (s.sectorCounter + 1) % 16 ∧
      (floppy_index_cb env s true true).lastSectorPulse = env.now) := by
  constructor
  · intro hlt
    simp [floppy_index_cb, hsel, hlt]
  · intro hge
    have hnlt : ¬ (env.now - s.lastSectorPulse < debounce_window) := by omega
    have hsel' : hdd_selected env { s with lastSectorPulse := env.now } = false := hsel
    constructor
    · rw [floppy_index_cb]
      simp only [hsel, Bool.false_or, Bool.not_true, if_neg hnlt]
      simp only [Bool.false_eq_true, if_false, reduceIte]
      rw [sector_cb_sectorCounter, hsel']
      simp [and_0xf_eq_mod]
    · rw [floppy_index_cb]
      simp only [hsel, Bool.false_or, Bool.not_true, if_neg hnlt]
      simp only [Bool.false_eq_true, if_false, reduceIte]
      rw [sector_cb_lastSectorPulse]

theorem C5_witness :
    (env0.now - ctl0.lastSectorPulse < debounce_window →
      floppy_index_cb env0 ctl0 true true = { ctl0 with sectorCounter := 0xf }) ∧
    (debounce_window ≤ env0.now - ctl0.lastSectorPulse →
      (floppy_index_cb env0 ctl0 true true).sectorCounter = (ctl0.sectorCounter + 1) % 16 ∧
      (floppy_index_cb env0 ctl0 true true).lastSectorPulse = env0.now) :=
  C5_floppy_debounce env0 ctl0 rfl (by decide)

/-! ### C7: read synchronization failure leaves the controller hung -/

/-- C7: when the incremented sector counter matches the target, the
controller is busy with no byte transfer active and a read is requested,
a failed sync-pattern search (window exhausted without seeing 0x5554 /
0x5555) aborts silently: no byte timer is scheduled and BusyFlag stays
set. -/
theorem C7_sync_abort (env : Env) (s : Ctl)
    (hb : s.busy = true) (hbt : s.byteTimer = none)
    (hm : (s.sectorCounter + 1) &&& (if hdd_selected env s then 0x1f else 0xf) = s.sector)
    (hr : s.readMode = true)
    (hf : (if hdd_selected env s
           then (hddSearch env s.pendingByte).1
           else (floppySearch env s.pendingByte s.pendingSize).1) = false) :
    (sector_cb env s).busy = true ∧ (sector_cb env s).byteTimer = none := by
  unfold sector_cb sector_cb_body
  by_cases hh : hdd_selected env s
  · simp only [hh, if_true] at hf hm ⊢
    rcases hsr : hddSearch env s.pendingByte with ⟨found, pb, tm⟩
    rw [hsr] at hf
    simp only at hf
    subst hf
    simp [hb, hbt, hm, hr, hsr]
  · simp only [hh, if_false] at hf hm ⊢
    rcases hsr : floppySearch env s.pendingByte s.pendingSize with ⟨found, st⟩
    rw [hsr] at hf
    simp only at hf
    subst hf
    simp only [hb, hbt, hr, hsr, Bool.eq_false_iff.mpr hh, Option.isSome_none,
      Bool.not_true, Bool.false_eq_true, if_false, reduceIte]
    refine ⟨?_, ?_⟩ <;> split <;> rfl

/-- A busy floppy read waiting for sector 1 with an empty flux stream. -/
def ctlC7 : Ctl := { ctl0 with busy := true, readMode := true, sector := 1 }

theorem C7_witness :
    (sector_cb env0 ctlC7).busy = true ∧ (sector_cb env0 ctlC7).byteTimer = none :=
  C7_sync_abort env0 ctlC7 rfl rfl (by decide) rfl (by decide)

/-! ### C8: staging-buffer cursor semantics -/

/-- An idle controller whose cursor sits at 5. -/
def ctlCmar5 : Ctl := { ctl0 with cmar := 5 }

/-- C8 counterexample: a write to offset 0xc3 does NOT zero the cursor —
that offset is the start port on writes; the cursor is zeroed by a READ of
the reset port. -/
theorem C8_counterexample : (s100_sout_w env0 ctlCmar5 0xc3 0).cmar ≠ 0 := by decide

/-- C8 amended: starting from a cursor in [0, 512), the cursor is again in
[0, 512) after every host-visible register access (any offset, busy or
not) and after every byte-transfer callback; while not busy and with side
effects enabled, a data-port read returns the byte at the cursor and
advances it modulo 512, a data-port write stores at the cursor and
advances it modulo 512, and a reset-port READ zeroes the cursor; a write
to that offset (the start port) never changes the cursor. -/
theorem C8_amended_cursor (env : Env) (s : Ctl) (hc : s.cmar < 512) :
    (s.busy = false → env.sideEffectsDisabled = false →
      (s100_sinp_r env s 0xc2).1 = s.ram s.cmar ∧
      (s100_sinp_r env s 0xc2).2 = { s with cmar := (s.cmar + 1) % 512 } ∧
      (∀ d, s100_sout_w env s 0xc2 d =
        { s with ram := Function.update s.ram s.cmar (d &&& 0xff),
                 cmar := (s.cmar + 1) % 512 }) ∧
      (s100_sinp_r env s 0xc3).2 = { s with cmar := 0 }) ∧
    (∀ d, (s100_sout_w env s 0xc3 d).cmar = s.cmar) ∧
    (∀ offset, (s100_sinp_r env s offset).2.cmar < 512) ∧
    (∀ offset d, (s100_sout_w env s offset d).cmar < 512) ∧
    (byte_cb env s).cmar < 512 := by
  have hmask : (s.cmar + 1) &&& 0x1ff = (s.cmar + 1) % 512 := and_0x1ff_eq_mod _
  have hlt : ∀ x : Nat, x &&& 0x1ff < 512 := fun x => by
    rw [and_0x1ff_eq_mod]
    exact Nat.mod_lt _ (by norm_num)
  refine ⟨fun hb hse => ⟨?_, ?_, fun d => ?_, ?_⟩, fun d => ?_,
          fun offset => ?_, fun offset d => ?_, ?_⟩
  · simp [s100_sinp_r, hb]
  · simp [s100_sinp_r, hb, hse, hmask]
  · simp [s100_sout_w, hb, hmask]
  · simp [s100_sinp_r, hb, hse]
  · by_cases hb : s.busy <;> simp [s100_sout_w, hb]
  · unfold s100_sinp_r
    (repeat' first | split | dsimp only) <;> first | exact hc | exact hlt _ | decide
  · unfold s100_sout_w
    (repeat' first | split | dsimp only) <;> first | exact hc | exact hlt _ | decide
  · unfold byte_cb
    (repeat' first | split | dsimp only) <;> first | exact hc | exact hlt _ | decide

theorem C8_witness :
    ((ctlCmar5.busy = false → env0.sideEffectsDisabled = false →
      (s100_sinp_r env0 ctlCmar5 0xc2).1 = ctlCmar5.ram ctlCmar5.cmar ∧
      (s100_sinp_r env0 ctlCmar5 0xc2).2 = { ctlCmar5 with cmar := (ctlCmar5.cmar + 1) % 512 } ∧
      (∀ d, s100_sout_w env0 ctlCmar5 0xc2 d =
        { ctlCmar5 with ram := Function.update ctlCmar5.ram ctlCmar5.cmar (d &&& 0xff),
                        cmar := (ctlCmar5.cmar + 1) % 512 }) ∧
      (s100_sinp_r env0 ctlCmar5 0xc3).2 = { ctlCmar5 with cmar := 0 }) ∧
    (∀ d, (s100_sout_w env0 ctlCmar5 0xc3 d).cmar = ctlCmar5.cmar) ∧
    (∀ offset, (s100_sinp_r env0 ctlCmar5 offset).2.cmar < 512) ∧
    (∀ offset d, (s100_sout_w env0 ctlCmar5 offset d).cmar < 512) ∧
    (byte_cb env0 ctlCmar5).cmar < 512) :=
  C8_amended_cursor env0 ctlCmar5 (by decide)

/-! ### C6: hard-disk synthetic sector timing -/

lemma fireSectorTimer_some (env : Env) (s : Ctl) (t p : Nat)
    (h : s.sectorTimer = some (t, p)) :
    fireSectorTimer env s =
      sector_cb { env with now := t } { s with sectorTimer := some (t + p, p) } := by
  unfold fireSectorTimer
  rw [h]

/-- Invariant of repeated synthetic sector-timer firings after a hard-disk
index pulse: after `k ≤ 31` firings the counter reads `k`, the drive
selection is untouched, and the periodic timer is scheduled for
`T1 + (k+1)·p` — except after the 31st firing, when it is disarmed. -/
lemma synthetic_fire_invariant (env : Env) (T1 p : Nat) (hp : env.hddPresent = true)
    (s0 : Ctl) (h1 : s0.drive = 0) (h2 : s0.sectorCounter = 0)
    (h3 : s0.sectorTimer = some (T1 + p, p)) :
    ∀ k, k ≤ 31 →
      ((fireSectorTimer env)^[k] s0).sectorCounter = k ∧
      ((fireSectorTimer env)^[k] s0).drive = 0 ∧
      ((fireSectorTimer env)^[k] s0).sectorTimer =
        (if k = 31 then none else some (T1 + (k + 1) * p, p)) := by
  intro k
  induction k with
  | zero =>
    intro _
    simp only [Function.iterate_zero_apply]
    refine ⟨h2, h1, ?_⟩
    rw [if_neg (by omega), h3]
    norm_num
  | succ k ih =>
    intro hk
    obtain ⟨hc, hd0, ht⟩ := ih (by omega)
    have hkne : k ≠ 31 := by omega
    rw [if_neg hkne] at ht
    rw [Function.iterate_succ_apply', fireSectorTimer_some env _ _ _ ht]
    have hsel : hdd_selected { env with now := T1 + (k + 1) * p }
        { (fireSectorTimer env)^[k] s0 with
          sectorTimer := some (T1 + (k + 1) * p + p, p) } = true := by
      simp [hdd_selected, hd0, hp]
    have hmask : k + 1 &&& 0x1f = k + 1 := by
      rw [and_0x1f_eq_mod]
      exact Nat.mod_eq_of_lt (by omega)
    refine ⟨?_, ?_, ?_⟩
    · rw [sector_cb_sectorCounter]
      simp only [hsel]
      try dsimp only
      rw [hc]
      simpa using hmask
    · rw [sector_cb_drive]
      exact hd0
    · rw [sector_cb_sectorTimer]
      simp only [hsel, Bool.true_and]
      try dsimp only
      rw [hc]
      simp only [if_true]
      by_cases h31 : k + 1 = 31
      · simp [h31]
      · have hbeq : ((k + 1 &&& 0x1f) == 0x1f) = false := by
          rw [hmask]
          simpa using h31
        simp only [hbeq, Bool.false_eq_true, if_false, if_neg h31]
        rw [Nat.succ_mul (k + 1) p, Nat.add_assoc]

/-- C6: a hard-disk index pulse at time `T1 = env.now`, one revolution
after the previous pulse at `T0 = s.lastIndexPulse`, arms the periodic
sector timer with period `p = (T1 - T0) / 32` so that it fires at
`T1 + k·p`; it forces the counter to 31 and immediately steps it to 0;
each synthetic firing `k = 1..31` increments the counter modulo 32 to `k`;
after the 31st firing the timer is disarmed; and `sector_cb` itself can
only leave the sector timer alone or disarm it — never re-arm it (only a
genuine index pulse does). -/
theorem C6_hdd_sector_timing (env : Env) (s : Ctl)
    (hd : s.drive = 0) (hp : env.hddPresent = true)
    (hT : s.lastIndexPulse ≤ env.now) :
    (harddisk_index_cb env s true).sectorCounter = 0 ∧
    (harddisk_index_cb env s true).sectorTimer =
      some (env.now + (env.now - s.lastIndexPulse) / 32,
            (env.now - s.lastIndexPulse) / 32) ∧
    (∀ k, k ≤ 31 →
      ((fireSectorTimer env)^[k] (harddisk_index_cb env s true)).sectorCounter = k ∧
      ((fireSectorTimer env)^[k] (harddisk_index_cb env s true)).sectorTimer =
        (if k = 31 then none
         else some (env.now + (k + 1) * ((env.now - s.lastIndexPulse) / 32),
                    (env.now - s.lastIndexPulse) / 32))) ∧
    (∀ (env' : Env) (s' : Ctl),
      (sector_cb env' s').sectorTimer = s'.sectorTimer ∨
      (sector_cb env' s').sectorTimer = none) := by
  have hsel0 : hdd_selected env s = true := by simp [hdd_selected, hd, hp]
  have hstep : harddisk_index_cb env s true =
      sector_cb env
        { s with sectorCounter := 0x1f,
                 lastIndexPulse := env.now,
                 sectorTimer := some (env.now + (env.now - s.lastIndexPulse) / 32,
                                      (env.now - s.lastIndexPulse) / 32) } := by
    unfold harddisk_index_cb
    rw [hsel0]
    simp
  have hsel1 : hdd_selected env
      { s with sectorCounter := 0x1f,
               lastIndexPulse := env.now,
               sectorTimer := some (env.now + (env.now - s.lastIndexPulse) / 32,
                                    (env.now - s.lastIndexPulse) / 32) } = true := by
    simp [hdd_selected, hd, hp]
  have hcount : (harddisk_index_cb env s true).sectorCounter = 0 := by
    rw [hstep, sector_cb_sectorCounter]
    simp only [hsel1]
    try dsimp only
    decide
  have htimer : (harddisk_index_cb env s true).sectorTimer =
      some (env.now + (env.now - s.lastIndexPulse) / 32,
            (env.now - s.lastIndexPulse) / 32) := by
    rw [hstep, sector_cb_sectorTimer]
    simp only [hsel1]
    simp
  have hdrive : (harddisk_index_cb env s true).drive = 0 := by
    rw [hstep, sector_cb_drive]
    exact hd
  refine ⟨hcount, htimer, ?_, ?_⟩
  · intro k hk
    obtain ⟨h1, _, h3⟩ := synthetic_fire_invariant env env.now
      ((env.now - s.lastIndexPulse) / 32) hp (harddisk_index_cb env s true)
      hdrive hcount htimer k hk
    exact ⟨h1, h3⟩
  · intro env' s'
    rw [sector_cb_sectorTimer]
    split <;> split <;> first | exact Or.inl rfl | exact Or.inr rfl

/-- Two hard-disk index pulses 64 time units apart. -/
def envW : Env := { envH with now := 64 }

theorem C6_witness :
    (harddisk_index_cb envW ctl0 true).sectorCounter = 0 ∧
    (harddisk_index_cb envW ctl0 true).sectorTimer =
      some (envW.now + (envW.now - ctl0.lastIndexPulse) / 32,
            (envW.now - ctl0.lastIndexPulse) / 32) ∧
    (∀ k, k ≤ 31 →
      ((fireSectorTimer envW)^[k] (harddisk_index_cb envW ctl0 true)).sectorCounter = k ∧
      ((fireSectorTimer envW)^[k] (harddisk_index_cb envW ctl0 true)).sectorTimer =
        (if k = 31 then none
         else some (envW.now + (k + 1) * ((envW.now - ctl0.lastIndexPulse) / 32),
                    (envW.now - ctl0.lastIndexPulse) / 32))) ∧
    (∀ (env' : Env) (s' : Ctl),
      (sector_cb env' s').sectorTimer = s'.sectorTimer ∨
      (sector_cb env' s').sectorTimer = none) :=
  C6_hdd_sector_timing envW ctl0 rfl rfl (by decide)

end VectorDualmode
